import Mathlib

/-
  Verification of the generation + QA retry core of the mcp-image-scientific
  repository, as a shallow embedding in Lean 4.

  Sources embedded:
  - src/types/qa.ts            (check status/severity, check definitions, tables,
                                getChecksForStyle)
  - src/business/scientificQaValidator.ts
                               (parseQaResponse, buildReportFromResults,
                                buildSkippedReport, buildRetryPatch, validate)
  - src/server/mcpServer.ts    (qaEnabled computation, retry loop of
                                handleGenerateImage, getExtensionFromImageData,
                                filename extension replacement)

  External I/O (the Gemini backends, the filesystem, wall-clock time) is modelled
  by explicit oracle parameters; JSON.parse of the evaluator reply is modelled by
  an `Option (List ReplyEntry)` input (`none` = the reply text is not valid JSON
  or the parsed value lacks a `checks` array).
-/

namespace McpImage

/-- Status of an individual QA check, from src/types/qa.ts (`QaCheckStatus`). -/
inductive QaCheckStatus
  | pass
  | fail
  | warning
  | skipped
deriving DecidableEq

/-- Severity of a QA check, from src/types/qa.ts (`QaCheckSeverity`). -/
inductive QaCheckSeverity
  | hard
  | soft
deriving DecidableEq

/-- Scientific figure styles, from src/types/mcp.ts (`FigureStyle`). -/
inductive FigureStyle
  | scientific_diagram
  | scientific_map
  | scientific_chart
deriving DecidableEq

/-- Individual QA check result, from src/types/qa.ts (`QaCheck`).
`detail` is optional in the source (`detail?: string | undefined`). -/
structure QaCheck where
  id : String
  name : String
  severity : QaCheckSeverity
  status : QaCheckStatus
  detail : Option String
deriving DecidableEq

/-- Complete QA report, from src/types/qa.ts (`QaReport`).
JavaScript numbers carrying the score are modelled as exact rationals. -/
structure QaReport where
  passed : Bool
  score : ℚ
  hardFailCount : ℕ
  checks : List QaCheck
  attempts : ℕ
  figureStyle : FigureStyle
  evaluationTimeMs : ℕ
deriving DecidableEq

/-- Definition of a QA check to be evaluated, from src/types/qa.ts
(`QaCheckDefinition`). -/
structure QaCheckDefinition where
  id : String
  name : String
  severity : QaCheckSeverity
  instruction : String
deriving DecidableEq

/-- Common checks applied to all figure styles, from src/types/qa.ts
(`COMMON_CHECKS`). -/
def COMMON_CHECKS : List QaCheckDefinition := [
  { id := "spelling", name := "Spelling Accuracy", severity := .hard,
    instruction := "Are there any spelling errors in ANY visible text, labels, or annotations? Check every single word carefully." },
  { id := "french_accents", name := "French Accent Marks", severity := .hard,
    instruction := "If the figure contains French text, are all accent marks correct? Check for é, è, ê, ë, à, â, ù, û, ô, î, ï, ç, and other diacritics. Missing or incorrect accents count as failures." },
  { id := "text_readable", name := "Text Readability", severity := .hard,
    instruction := "Is ALL text visible, legible, and at a sufficient font size for publication? No text should overlap other text or elements." },
  { id := "clean_background", name := "Clean Background", severity := .hard,
    instruction := "Is the background clean white or neutral? There should be no distracting gradients, artistic effects, or decorative elements." },
  { id := "contrast", name := "Sufficient Contrast", severity := .hard,
    instruction := "Is there sufficient contrast between text/lines and the background for clear readability? Dark text/lines on light background." },
  { id := "scientific_terminology", name := "Scientific Terminology", severity := .soft,
    instruction := "Is the scientific terminology used correctly and consistently throughout the figure?" }
]

/-- Checks specific to scientific_map figures, from src/types/qa.ts
(`MAP_CHECKS`). -/
def MAP_CHECKS : List QaCheckDefinition := [
  { id := "scale_bar", name := "Scale Bar Present", severity := .hard,
    instruction := "Is there a clearly visible scale bar with metric units (m or km)?" },
  { id := "north_arrow", name := "North Arrow Present", severity := .hard,
    instruction := "Is there a clearly visible north arrow or compass indicator?" },
  { id := "legend_if_needed", name := "Legend If Needed", severity := .soft,
    instruction := "If there are color-coded regions, symbols, or multiple data layers, is there a legend explaining them?" }
]

/-- Checks specific to scientific_chart figures, from src/types/qa.ts
(`CHART_CHECKS`). -/
def CHART_CHECKS : List QaCheckDefinition := [
  { id := "axis_labels", name := "Axis Labels", severity := .hard,
    instruction := "Are BOTH x-axis and y-axis clearly labeled?" },
  { id := "units_present", name := "Units Present", severity := .hard,
    instruction := "Do axis labels include appropriate SI units (e.g., °C, m, km, W/m², years)?" },
  { id := "legend_if_multiple", name := "Legend for Multiple Series", severity := .hard,
    instruction := "If there are multiple data series, lines, or bars, is there a legend?" },
  { id := "gridlines", name := "Grid Lines", severity := .soft,
    instruction := "Are grid lines present if they would help reading values from the chart?" }
]

/-- Checks specific to scientific_diagram figures, from src/types/qa.ts
(`DIAGRAM_CHECKS`). -/
def DIAGRAM_CHECKS : List QaCheckDefinition := [
  { id := "components_labeled", name := "Components Labeled", severity := .hard,
    instruction := "Are all major components and elements in the diagram clearly labeled with text annotations?" },
  { id := "visual_style_consistency", name := "Visual Style Consistency", severity := .hard,
    instruction := "Is the visual style homogeneous throughout the diagram? There should be no mixing of flat 2D and semi-realistic 3D elements, no mixing of icon styles, and no inconsistent rendering approaches within the same figure." },
  { id := "subpanel_labels", name := "Sub-panel Labels", severity := .hard,
    instruction := "If the figure contains multiple sub-panels or sections, are they clearly labeled with lowercase letters (a, b, c, d) or numbers following journal conventions? Single-panel figures pass this check automatically." },
  { id := "color_palette_coherent", name := "Coherent Color Palette", severity := .hard,
    instruction := "Is the color palette coherent and unified across the entire diagram? Colors should follow a consistent scheme (e.g., blues for water/ice, greens for vegetation, reds for heat/danger). Random or clashing colors are a failure." },
  { id := "flow_arrows", name := "Flow Arrows", severity := .soft,
    instruction := "If this is a process diagram, are arrows and flow direction clear and unambiguous?" },
  { id := "consistent_lineweight", name := "Consistent Line Weight", severity := .soft,
    instruction := "Are line weights consistent and professional throughout the diagram?" }
]

/-- Get all QA checks applicable to a given figure style, from src/types/qa.ts
(`getChecksForStyle`): the common checks followed by the style-specific checks. -/
def getChecksForStyle (figureStyle : FigureStyle) : List QaCheckDefinition :=
  COMMON_CHECKS ++
    (match figureStyle with
      | .scientific_map => MAP_CHECKS
      | .scientific_chart => CHART_CHECKS
      | .scientific_diagram => DIAGRAM_CHECKS)

/-- Classified backend error, from src/utils/errors.ts: the validator and the
image client surface `GeminiAPIError` or `NetworkError` values, each carrying a
message (content-blocked and empty-result failures are `GeminiAPIError`s with
specific messages). -/
inductive GeminiError
  | apiError (message : String)
  | networkError (message : String)
deriving DecidableEq

/-- Result type, from src/types/result.ts: success with data or failure with
error. -/
inductive Result (α : Type) (ε : Type)
  | ok (data : α)
  | err (error : ε)
deriving DecidableEq

/-- One entry of the evaluator reply's `checks` array, as consumed by
`parseQaResponse` in src/business/scientificQaValidator.ts: the code reads
`c?.id`, `found?.status` and `found?.detail` from untyped JSON, so each field is
optional (`none` models a missing field, a null entry, or — for `detail` — a
non-string value). -/
structure ReplyEntry where
  id : Option String
  status : Option String
  detail : Option String
deriving DecidableEq

/-- JavaScript `Math.round`, which rounds half-up: the unique integer
`⌊x + 1/2⌋`. -/
def jsRound (x : ℚ) : ℤ := ⌊x + 1/2⌋

/-- Build a QaReport from check results, from
src/business/scientificQaValidator.ts (`buildReportFromResults`). The score is
`Math.round((passedChecks.length / evaluatedChecks.length) * 100) / 100` when
any check was evaluated, else 0. -/
def buildReportFromResults (checks : List QaCheck) (figureStyle : FigureStyle) :
    QaReport :=
  let evaluatedChecks := checks.filter (fun r => r.status != QaCheckStatus.skipped)
  let passedChecks := evaluatedChecks.filter (fun r => r.status == QaCheckStatus.pass)
  let hardFailures := checks.filter
    (fun r => r.severity == QaCheckSeverity.hard && r.status == QaCheckStatus.fail)
  let score : ℚ :=
    if evaluatedChecks.length > 0 then
      (jsRound (((passedChecks.length : ℚ) / (evaluatedChecks.length : ℚ)) * 100) : ℚ) / 100
    else 0
  { passed := hardFailures.length == 0
    score := score
    hardFailCount := hardFailures.length
    checks := checks
    attempts := 1
    figureStyle := figureStyle
    evaluationTimeMs := 0 }

/-- Build a report where all checks are skipped, from
src/business/scientificQaValidator.ts (`buildSkippedReport`): the fallback for
parse errors and evaluator-backend failures. -/
def buildSkippedReport (figureStyle : FigureStyle)
    (checkDefinitions : List QaCheckDefinition) : QaReport :=
  let checks : List QaCheck := checkDefinitions.map (fun def_ =>
    { id := def_.id
      name := def_.name
      severity := def_.severity
      status := QaCheckStatus.skipped
      detail := some "QA evaluation could not be completed" })
  { passed := true
    score := 0
    hardFailCount := 0
    checks := checks
    attempts := 1
    figureStyle := figureStyle
    evaluationTimeMs := 0 }

/-- Parse the QA response into a structured report, from
src/business/scientificQaValidator.ts (`parseQaResponse`). The JSON parsing of
the reply text (`JSON.parse` after stripping code fences, plus the
`Array.isArray(parsed.checks)` test) is modelled by the `Option`: `reply = none`
means the text was not valid JSON or lacked a `checks` array. For each check
definition, the first reply entry with a matching id is used when its status is
one of pass/fail/warning; otherwise the check is marked skipped. -/
def parseQaResponse (reply : Option (List ReplyEntry)) (figureStyle : FigureStyle)
    (checkDefinitions : List QaCheckDefinition) : QaReport :=
  match reply with
  | none => buildSkippedReport figureStyle checkDefinitions
  | some entries =>
    let results : List QaCheck := checkDefinitions.map (fun checkDef =>
      let found := entries.find? (fun c => c.id == some checkDef.id)
      let status := found.bind (fun c => c.status)
      { id := checkDef.id
        name := checkDef.name
        severity := checkDef.severity
        status :=
          if status == some "pass" then QaCheckStatus.pass
          else if status == some "fail" then QaCheckStatus.fail
          else if status == some "warning" then QaCheckStatus.warning
          else QaCheckStatus.skipped
        detail := found.bind (fun c => c.detail) })
    buildReportFromResults results figureStyle

/-- The validate method of `ScientificQaValidatorImpl`, from
src/business/scientificQaValidator.ts. The evaluator-backend call
(`textClient.generateText`) is modelled by its outcome `backendResult`: on
failure the all-skipped fallback report is returned as a success; on success the
reply is parsed. The method never returns an error. -/
def validate (figureStyle : FigureStyle)
    (backendResult : Result (Option (List ReplyEntry)) GeminiError) :
    Result QaReport GeminiError :=
  let checkDefinitions := getChecksForStyle figureStyle
  match backendResult with
  | .err _ => .ok (buildSkippedReport figureStyle checkDefinitions)
  | .ok reply => .ok (parseQaResponse reply figureStyle checkDefinitions)

/-- Remediation instructions keyed by check id, from
src/business/scientificQaValidator.ts (`REMEDIATION_INSTRUCTIONS`); `none` for
ids outside the table. -/
def REMEDIATION_INSTRUCTIONS (id : String) : Option String :=
  if id == "spelling" then
    some "CRITICAL FIX: There are spelling errors in the figure. Double-check and correct ALL text, labels, and annotations."
  else if id == "french_accents" then
    some "CRITICAL FIX: French accent marks are missing or incorrect. Ensure all French text has correct accents: é, è, ê, ë, à, â, ù, û, ô, î, ï, ç."
  else if id == "text_readable" then
    some "CRITICAL FIX: Some text is not readable. All text must be clearly visible, at a sufficient font size, with no overlapping."
  else if id == "clean_background" then
    some "CRITICAL FIX: The background must be clean white or neutral. Remove any gradients, artistic effects, or decorative elements."
  else if id == "contrast" then
    some "CRITICAL FIX: Insufficient contrast. Use dark text/lines on a light background for clear readability."
  else if id == "scale_bar" then
    some "MANDATORY ELEMENT MISSING: You MUST include a clearly visible scale bar with metric units (m or km) in the bottom-left or bottom-right corner."
  else if id == "north_arrow" then
    some "MANDATORY ELEMENT MISSING: You MUST include a clearly visible north arrow (standard cartographic symbol) in the top-right corner."
  else if id == "axis_labels" then
    some "MANDATORY ELEMENT MISSING: BOTH x-axis and y-axis MUST have clearly visible labels."
  else if id == "units_present" then
    some "MANDATORY ELEMENT MISSING: All axis labels MUST include appropriate SI units in parentheses (e.g., Temperature (°C), Distance (km))."
  else if id == "legend_if_multiple" then
    some "MANDATORY ELEMENT MISSING: You MUST include a legend that explains all data series, colors, and symbols."
  else if id == "components_labeled" then
    some "MANDATORY ELEMENT MISSING: ALL major components and elements in the diagram MUST be clearly labeled with text annotations."
  else none

/-- One remediation line of the retry patch, from the body of the
`hardFailures.map` in `buildRetryPatch` (src/business/scientificQaValidator.ts).
JavaScript truthiness of `f.detail` (falsy when undefined or the empty string)
governs both the parenthesised issue text and the generic fallback. -/
def remediationLine (f : QaCheck) : String :=
  let instruction := REMEDIATION_INSTRUCTIONS f.id
  let detail :=
    match f.detail with
    | some d => if d != "" then " (Issue found: " ++ d ++ ")" else ""
    | none => ""
  match instruction with
  | some instr => "- " ++ instr ++ detail
  | none =>
    "- FIX REQUIRED for \"" ++ f.name ++ "\": " ++
      (match f.detail with
        | some d => if d != "" then d else "This element is mandatory."
        | none => "This element is mandatory.")

/-- Header line of the retry patch, from the template literal returned by
`buildRetryPatch`. -/
def retryPatchHeader : String :=
  "\n\n[CORRECTIONS OBLIGATOIRES - QA REMEDIATION]\nThe previous generation FAILED quality checks. You MUST address ALL of the following issues:\n"

/-- Footer of the retry patch, from the template literal returned by
`buildRetryPatch`. -/
def retryPatchFooter : String :=
  "\n\nThese fixes are MANDATORY for publication-quality scientific figures. Do not omit any of them."

/-- Build a retry patch from failed QA checks, from
src/business/scientificQaValidator.ts (`buildRetryPatch`): empty when no check
is a hard failure, otherwise a delimited block with one remediation line per
hard failure. -/
def buildRetryPatch (failedChecks : List QaCheck) : String :=
  let hardFailures := failedChecks.filter
    (fun c => c.severity == QaCheckSeverity.hard && c.status == QaCheckStatus.fail)
  if hardFailures.length == 0 then ""
  else
    let remediations := String.intercalate "\n" (hardFailures.map remediationLine)
    retryPatchHeader ++ remediations ++ retryPatchFooter

/-- Result of one image-generation call, from src/api/geminiClient.ts
(`GeneratedImageResult`): only the image bytes matter to the orchestrator
claims; the bytes are modelled as a list of byte values. -/
structure GenerationResult where
  imageData : List ℕ
deriving DecidableEq

/-- The configuration fields consumed by the orchestrator, from
src/utils/config.ts: `enableScientificQa` (SCIENTIFIC_QA_ENABLED) and
`scientificQaMaxRetries` (non-negative, clamped by `Math.max`). -/
structure Config where
  enableScientificQa : Bool
  scientificQaMaxRetries : ℕ
deriving DecidableEq

/-- The tool-call parameters consumed by the QA/retry logic, from
src/types/mcp.ts (`GenerateImageParams`): the prompt, the optional output file
name, the optional figure style, and the optional per-call QA opt-in. -/
structure GenerateImageParams where
  prompt : String
  fileName : Option String
  figureStyle : Option FigureStyle
  validateQa : Option Bool
deriving DecidableEq

/-- Whether `this.qaValidator` is non-null when `handleGenerateImage` reaches
the `qaEnabled` computation, for a freshly constructed server. From
src/server/mcpServer.ts: `initializeClients` creates the validator when
`enableScientificQa` is set and the QA text-client creation succeeds
(`initClientOk`); the on-demand block in `handleGenerateImage` creates it when
`params.validateQa` is true, the validator is still null, and a figure style is
present, provided that client creation succeeds (`onDemandClientOk`). -/
def qaValidatorPresent (cfg : Config) (params : GenerateImageParams)
    (initClientOk onDemandClientOk : Bool) : Bool :=
  let afterInit := cfg.enableScientificQa && initClientOk
  if params.validateQa == some true && !afterInit && params.figureStyle.isSome then
    (if onDemandClientOk then true else afterInit)
  else afterInit

/-- Whether QA validation runs for this request, from src/server/mcpServer.ts:
`params.figureStyle !== undefined && (config.enableScientificQa ||
params.validateQa === true) && this.qaValidator !== null`. -/
def qaEnabled (cfg : Config) (params : GenerateImageParams)
    (initClientOk onDemandClientOk : Bool) : Bool :=
  params.figureStyle.isSome
    && (cfg.enableScientificQa || params.validateQa == some true)
    && qaValidatorPresent cfg params initClientOk onDemandClientOk

/-- The attempt budget, from src/server/mcpServer.ts:
`qaEnabled ? config.scientificQaMaxRetries + 1 : 1`. -/
def maxAttemptsFor (cfg : Config) (qaOn : Bool) : ℕ :=
  if qaOn then cfg.scientificQaMaxRetries + 1 else 1

/-- File extension detection from image magic bytes, from
src/server/mcpServer.ts (`getExtensionFromImageData`): PNG, JPEG, GIF and WEBP
signatures are recognised; buffers shorter than 12 bytes and unrecognised
signatures default to ".png". Byte reads out of range are modelled as 0 (they
cannot occur past the length guard). -/
def getExtensionFromImageData (imageData : List ℕ) : String :=
  let b := fun (i : ℕ) => imageData.getD i 0
  if imageData.length < 12 then ".png"
  else if b 0 == 0x89 && b 1 == 0x50 && b 2 == 0x4e && b 3 == 0x47 then ".png"
  else if b 0 == 0xff && b 1 == 0xd8 && b 2 == 0xff then ".jpg"
  else if b 0 == 0x47 && b 1 == 0x49 && b 2 == 0x46 && b 3 == 0x38 then ".gif"
  else if b 0 == 0x52 && b 1 == 0x49 && b 2 == 0x46 && b 3 == 0x46
      && b 8 == 0x57 && b 9 == 0x45 && b 10 == 0x42 && b 11 == 0x50 then ".webp"
  else ".png"

/-- The extension-stripping step of the filename handling in
`handleGenerateImage` (src/server/mcpServer.ts):
`fileName.replace(/\.[^/.]+$/, "")`. The regex matches a final dot followed by
one or more characters none of which is a dot or a slash; equivalently, the
string is cut at its last dot when the suffix after that dot is non-empty and
slash-free, and returned unchanged otherwise. -/
def stripExtension (fileName : String) : String :=
  let rev := fileName.data.reverse
  let suffix := rev.takeWhile (fun c => !(c == '.' || c == '/'))
  let rest := rev.drop suffix.length
  if suffix.length > 0 && rest.headD ' ' == '.' then
    String.mk (rest.tail.reverse)
  else fileName

/-- Trace of one run of the generation + QA retry loop: the prompts sent to the
image backend (one per generation call, in order), the attempt numbers at which
the QA validator was invoked, and the loop outcome (`err` models the
`throw generationResult.error` abort; `ok` carries the retained last generation
result and the last QA report, as the loop leaves them). -/
structure LoopTrace where
  genPrompts : List String
  qaAttempts : List ℕ
  outcome : Result (Option GenerationResult × Option QaReport) GeminiError
deriving DecidableEq

/-- The generation + QA retry loop of `handleGenerateImage`
(src/server/mcpServer.ts), as structural recursion on the remaining attempts
(`remaining = maxAtt - attempt + 1` at every call). `gen` is the image backend
(`geminiClient.generateImage`, a function of the attempt number and the prompt
sent), `qa` the QA validator outcome per attempt (`qaValidator.validate`), and
`evalTimeMs` the measured wall-clock evaluation time per attempt. Each
iteration: call `gen`; on failure abort with that error; otherwise retain the
result; if QA is off, stop; otherwise call `qa`; on an ok report, stamp
`attempts` and `evaluationTimeMs`, stop when the report passed or the budget is
reached, otherwise retry with `structuredPrompt ++ patch` when the patch is
non-empty and stop when it is empty; on a qa error, stop keeping the previous
report. -/
def retryLoopGo (gen : ℕ → String → Result GenerationResult GeminiError)
    (qa : ℕ → Result QaReport GeminiError) (evalTimeMs : ℕ → ℕ)
    (qaOn : Bool) (structuredPrompt : String) (maxAtt : ℕ) :
    ℕ → ℕ → String → Option GenerationResult → Option QaReport → LoopTrace
  | 0, _, _, lastGen, lastReport =>
    { genPrompts := [], qaAttempts := [], outcome := .ok (lastGen, lastReport) }
  | remaining + 1, attempt, currentPrompt, _lastGen, lastReport =>
    match gen attempt currentPrompt with
    | .err e => { genPrompts := [currentPrompt], qaAttempts := [], outcome := .err e }
    | .ok g =>
      if qaOn then
        match qa attempt with
        | .ok r =>
          let report : QaReport :=
            { r with attempts := attempt, evaluationTimeMs := evalTimeMs attempt }
          if report.passed || attempt == maxAtt then
            { genPrompts := [currentPrompt], qaAttempts := [attempt],
              outcome := .ok (some g, some report) }
          else
            let patch := buildRetryPatch report.checks
            if patch != "" then
              let rest := retryLoopGo gen qa evalTimeMs qaOn structuredPrompt maxAtt
                remaining (attempt + 1) (structuredPrompt ++ patch) (some g) (some report)
              { genPrompts := currentPrompt :: rest.genPrompts,
                qaAttempts := attempt :: rest.qaAttempts,
                outcome := rest.outcome }
            else
              { genPrompts := [currentPrompt], qaAttempts := [attempt],
                outcome := .ok (some g, some report) }
        | .err _ =>
          { genPrompts := [currentPrompt], qaAttempts := [attempt],
            outcome := .ok (some g, lastReport) }
      else
        { genPrompts := [currentPrompt], qaAttempts := [], outcome := .ok (some g, lastReport) }

/-- The error thrown by `handleGenerateImage` when the loop ends with no
retained generation result (`throw new Error("Image generation failed")`). -/
def imageGenerationFailed : GeminiError := .apiError "Image generation failed"

/-- Outcome of one `handleGenerateImage` invocation: the backend-call trace, the
response (the generated artifact plus the optional QA report, or the classified
error), and the file name under which the artifact was persisted (`none` when
nothing was saved). -/
structure GenerateOutcome where
  genPrompts : List String
  qaAttempts : List ℕ
  response : Result (GenerationResult × Option QaReport) GeminiError
  savedFileName : Option String
deriving DecidableEq

/-- The tail of `handleGenerateImage` after the retry loop
(src/server/mcpServer.ts): on a loop abort the classified error is rethrown and
nothing is saved; with no retained generation result the generic
image-generation failure is thrown and nothing is saved; otherwise the artifact
is persisted, replacing the extension of a caller-supplied file name by the one
detected from the image bytes (`autoFileName` models
`fileManager.generateFileName` for the caller-omitted case). -/
def finishOutcome (params : GenerateImageParams) (autoFileName : String)
    (t : LoopTrace) : GenerateOutcome :=
  match t.outcome with
  | .err e =>
    { genPrompts := t.genPrompts, qaAttempts := t.qaAttempts,
      response := .err e, savedFileName := none }
  | .ok (none, _) =>
    { genPrompts := t.genPrompts, qaAttempts := t.qaAttempts,
      response := .err imageGenerationFailed, savedFileName := none }
  | .ok (some g, report) =>
    let fileName :=
      match params.fileName with
      | some f => stripExtension f ++ getExtensionFromImageData g.imageData
      | none => autoFileName
    { genPrompts := t.genPrompts, qaAttempts := t.qaAttempts,
      response := .ok (g, report), savedFileName := some fileName }

/-- The loop trace of one `handleGenerateImage` invocation: the retry loop run
with the computed QA flag and attempt budget, starting at attempt 1 from the
structured prompt with no retained result and no report. -/
def loopTraceOf (cfg : Config) (params : GenerateImageParams)
    (initClientOk onDemandClientOk : Bool) (structuredPrompt : String)
    (gen : ℕ → String → Result GenerationResult GeminiError)
    (qa : ℕ → Result QaReport GeminiError) (evalTimeMs : ℕ → ℕ) : LoopTrace :=
  let qaOn := qaEnabled cfg params initClientOk onDemandClientOk
  let maxAtt := maxAttemptsFor cfg qaOn
  retryLoopGo gen qa evalTimeMs qaOn structuredPrompt maxAtt
    maxAtt 1 structuredPrompt none none

/-- The QA-relevant behaviour of `handleGenerateImage`
(src/server/mcpServer.ts): compute `qaEnabled` and the attempt budget, run the
retry loop starting from the structured prompt, then persist only on success.
Prompt enrichment happens before this fragment and is modelled by passing its
result `structuredPrompt`. -/
def handleGenerateImage (cfg : Config) (params : GenerateImageParams)
    (initClientOk onDemandClientOk : Bool) (structuredPrompt : String)
    (gen : ℕ → String → Result GenerationResult GeminiError)
    (qa : ℕ → Result QaReport GeminiError) (evalTimeMs : ℕ → ℕ)
    (autoFileName : String) : GenerateOutcome :=
  finishOutcome params autoFileName
    (loopTraceOf cfg params initClientOk onDemandClientOk structuredPrompt gen qa evalTimeMs)

/-! ### Helper lemmas -/

/-- The checks of the all-skipped fallback report are the check definitions,
each materialized with status skipped. -/
lemma buildSkippedReport_checks (style : FigureStyle)
    (defs : List QaCheckDefinition) :
    (buildSkippedReport style defs).checks = defs.map (fun d =>
      { id := d.id, name := d.name, severity := d.severity,
        status := QaCheckStatus.skipped,
        detail := some "QA evaluation could not be completed" }) := rfl

/-- Every check of the all-skipped fallback report has status skipped. -/
lemma buildSkippedReport_all_skipped (style : FigureStyle)
    (defs : List QaCheckDefinition) :
    ∀ c ∈ (buildSkippedReport style defs).checks, c.status = QaCheckStatus.skipped := by
  intro c hc
  rw [buildSkippedReport_checks] at hc
  rcases List.mem_map.mp hc with ⟨d, _, rfl⟩
  rfl

/-- Filtering the all-skipped report for any status-based predicate that
rejects skipped checks gives the empty list. -/
lemma buildSkippedReport_filter_nil (style : FigureStyle)
    (defs : List QaCheckDefinition) (p : QaCheck → Bool)
    (hp : ∀ c : QaCheck, c.status = QaCheckStatus.skipped → p c = false) :
    (buildSkippedReport style defs).checks.filter p = [] := by
  rw [List.filter_eq_nil_iff]
  intro c hc
  have hs := buildSkippedReport_all_skipped style defs c hc
  simp [hp c hs]

/-- Case analysis on the report returned by `validate`: it is the all-skipped
fallback, or the parse of a reply whose JSON had a checks array. -/
lemma validate_cases (style : FigureStyle)
    (br : Result (Option (List ReplyEntry)) GeminiError) (r : QaReport)
    (h : validate style br = .ok r) :
    r = buildSkippedReport style (getChecksForStyle style) ∨
      ∃ entries, br = .ok (some entries) ∧
        r = buildReportFromResults
          ((getChecksForStyle style).map (fun checkDef =>
            let found := entries.find? (fun c => c.id == some checkDef.id)
            let status := found.bind (fun c => c.status)
            { id := checkDef.id, name := checkDef.name, severity := checkDef.severity,
              status :=
                if status == some "pass" then QaCheckStatus.pass
                else if status == some "fail" then QaCheckStatus.fail
                else if status == some "warning" then QaCheckStatus.warning
                else QaCheckStatus.skipped,
              detail := found.bind (fun c => c.detail) })) style := by
  rcases br with reply | e
  · rcases reply with _ | entries
    · left
      simpa [validate, parseQaResponse] using h.symm
    · right
      exact ⟨entries, rfl, by simpa [validate, parseQaResponse] using h.symm⟩
  · left
    simpa [validate] using h.symm

/-- A check counts as evaluated (status pass, fail or warning) exactly when its
status is not skipped. -/
lemma qaCheck_evaluated_pred (c : QaCheck) :
    (c.status == QaCheckStatus.pass || c.status == QaCheckStatus.fail
        || c.status == QaCheckStatus.warning)
      = (c.status != QaCheckStatus.skipped) := by
  rcases c with ⟨_, _, _, st, _⟩
  cases st <;> rfl

/-- Restricting the pass filter to non-skipped checks changes nothing: a
passing check is never skipped. -/
lemma filter_pass_of_filter_evaluated (l : List QaCheck) :
    (l.filter (fun c => c.status != QaCheckStatus.skipped)).filter
        (fun c => c.status == QaCheckStatus.pass)
      = l.filter (fun c => c.status == QaCheckStatus.pass) := by
  rw [List.filter_filter]
  apply List.filter_congr
  intro c _
  rcases c with ⟨_, _, _, st, _⟩
  cases st <;> rfl

/-- A hard failure is never skipped, so excluding skipped checks from the
hard-failure filter changes nothing. -/
lemma qaCheck_hardfail_pred (c : QaCheck) :
    (c.status != QaCheckStatus.skipped
        && (c.severity == QaCheckSeverity.hard && c.status == QaCheckStatus.fail))
      = (c.severity == QaCheckSeverity.hard && c.status == QaCheckStatus.fail) := by
  rcases c with ⟨_, _, sev, st, _⟩
  cases st <;> cases sev <;> rfl

/-- The hardFailCount of every report returned by `validate` is the number of
its checks with severity hard and status fail. -/
lemma validate_hardFailCount (style : FigureStyle)
    (br : Result (Option (List ReplyEntry)) GeminiError) (r : QaReport)
    (h : validate style br = .ok r) :
    r.hardFailCount = (r.checks.filter (fun c =>
      c.severity == QaCheckSeverity.hard && c.status == QaCheckStatus.fail)).length := by
  rcases validate_cases style br r h with hr | ⟨entries, _, hr⟩
  · subst hr
    rw [buildSkippedReport_filter_nil]
    · rfl
    · intro c hs
      simp [hs]
  · subst hr
    rfl

/-- The passed flag of every report returned by `validate` is the zero test of
its hardFailCount. -/
lemma validate_passed (style : FigureStyle)
    (br : Result (Option (List ReplyEntry)) GeminiError) (r : QaReport)
    (h : validate style br = .ok r) :
    r.passed = (r.hardFailCount == 0) := by
  rcases validate_cases style br r h with hr | ⟨entries, _, hr⟩ <;> subst hr <;> rfl

/-- The checks stored by `buildReportFromResults` are its input list. -/
lemma buildReportFromResults_checks (checks : List QaCheck) (style : FigureStyle) :
    (buildReportFromResults checks style).checks = checks := rfl

/-- The score computed by `buildReportFromResults`, expressed through the
report's own checks list: the pass count over the evaluated count, rounded as
JavaScript rounds `Math.round(ratio * 100) / 100`, and 0 when no check was
evaluated. -/
lemma buildReportFromResults_score (checks : List QaCheck) (style : FigureStyle) :
    (buildReportFromResults checks style).score =
      if 0 < (checks.filter (fun c => c.status == QaCheckStatus.pass
          || c.status == QaCheckStatus.fail || c.status == QaCheckStatus.warning)).length then
        (jsRound ((((checks.filter (fun c => c.status == QaCheckStatus.pass)).length : ℚ) /
            ((checks.filter (fun c => c.status == QaCheckStatus.pass
              || c.status == QaCheckStatus.fail
              || c.status == QaCheckStatus.warning)).length : ℚ)) * 100) : ℚ) / 100
      else 0 := by
  have hE : checks.filter (fun c => c.status == QaCheckStatus.pass
        || c.status == QaCheckStatus.fail || c.status == QaCheckStatus.warning)
      = checks.filter (fun c => c.status != QaCheckStatus.skipped) :=
    List.filter_congr (fun c _ => qaCheck_evaluated_pred c)
  have hP := filter_pass_of_filter_evaluated checks
  simp only [buildReportFromResults, hE, hP]

/-! ### C1 -/

/-- C1: for every QaReport produced by the QA Evaluator (including the
all-skipped fallback), `hardFailCount` equals the number of checks with
severity hard and status fail, and `passed` is true exactly when
`hardFailCount` is zero — independently of `score` and of soft-check
outcomes. -/
theorem hardFailCount_counts_hard_fails_and_passed_iff_zero
    (style : FigureStyle) (br : Result (Option (List ReplyEntry)) GeminiError)
    (r : QaReport) (h : validate style br = .ok r) :
    r.hardFailCount = (r.checks.filter (fun c =>
        c.severity == QaCheckSeverity.hard && c.status == QaCheckStatus.fail)).length ∧
      r.passed = (r.hardFailCount == 0) :=
  ⟨validate_hardFailCount style br r h, validate_passed style br r h⟩

/-- Witness for C1 at a concrete input: an evaluator network failure for a map
figure. -/
theorem hardFailCount_counts_hard_fails_and_passed_iff_zero_witness :
    (buildSkippedReport FigureStyle.scientific_map
        (getChecksForStyle FigureStyle.scientific_map)).hardFailCount =
      ((buildSkippedReport FigureStyle.scientific_map
        (getChecksForStyle FigureStyle.scientific_map)).checks.filter (fun c =>
        c.severity == QaCheckSeverity.hard && c.status == QaCheckStatus.fail)).length ∧
      (buildSkippedReport FigureStyle.scientific_map
        (getChecksForStyle FigureStyle.scientific_map)).passed =
        ((buildSkippedReport FigureStyle.scientific_map
          (getChecksForStyle FigureStyle.scientific_map)).hardFailCount == 0) :=
  hardFailCount_counts_hard_fails_and_passed_iff_zero FigureStyle.scientific_map
    (.err (.networkError "connection reset")) _ rfl

/-! ### C2 -/

/-- C2: if the evaluator backend call fails, or its reply is not valid JSON, or
the parsed value lacks a checks array, `validate` returns a success (never an
error) whose report marks every check of the effective set skipped, with
`passed` true and `score` zero. -/
theorem qa_infrastructure_failure_gives_skipped_passing_report
    (style : FigureStyle) (e : GeminiError) :
    validate style (.err e) =
        .ok (buildSkippedReport style (getChecksForStyle style)) ∧
      validate style (.ok none) =
        .ok (buildSkippedReport style (getChecksForStyle style)) ∧
      (buildSkippedReport style (getChecksForStyle style)).checks.map
          (fun c => c.id) = (getChecksForStyle style).map (fun d => d.id) ∧
      ((buildSkippedReport style (getChecksForStyle style)).checks.all
        (fun c => c.status == QaCheckStatus.skipped)) = true ∧
      (buildSkippedReport style (getChecksForStyle style)).passed = true ∧
      (buildSkippedReport style (getChecksForStyle style)).score = 0 := by
  refine ⟨rfl, rfl, ?_, ?_, rfl, rfl⟩
  · rw [buildSkippedReport_checks, List.map_map]
    rfl
  · rw [List.all_eq_true]
    intro c hc
    simp [buildSkippedReport_all_skipped style (getChecksForStyle style) c hc]

/-! ### C4 -/

/-- Evaluator reply used as the C4 counterexample: of the nine map checks,
exactly three are evaluated (one pass, one fail, one warning), so the exact
pass ratio is 1/3 while the code rounds it to 33/100. -/
def c4Entries : List ReplyEntry := [
  { id := some "spelling", status := some "pass", detail := some "ok" },
  { id := some "french_accents", status := some "fail", detail := some "accent manquant" },
  { id := some "text_readable", status := some "warning", detail := none }
]

/-- The report built from `c4Entries` for a map figure. -/
def c4Report : QaReport :=
  parseQaResponse (some c4Entries) FigureStyle.scientific_map
    (getChecksForStyle FigureStyle.scientific_map)

/-- C4 counterexample: for this evaluator reply the report's score is not the
pass count divided by the evaluated count — the code stores the ratio rounded
to two decimal places (33/100, not 1/3). -/
theorem score_not_exact_pass_ratio_cex :
    validate FigureStyle.scientific_map (.ok (some c4Entries)) = .ok c4Report ∧
      c4Report.score ≠
        ((c4Report.checks.filter (fun c => c.status == QaCheckStatus.pass)).length : ℚ) /
          ((c4Report.checks.filter (fun c => c.status == QaCheckStatus.pass
            || c.status == QaCheckStatus.fail
            || c.status == QaCheckStatus.warning)).length : ℚ) := by
  refine ⟨rfl, ?_⟩
  have h1 : (c4Report.checks.filter
      (fun c => c.status == QaCheckStatus.pass)).length = 1 := by decide
  have h2 : (c4Report.checks.filter (fun c => c.status == QaCheckStatus.pass
      || c.status == QaCheckStatus.fail
      || c.status == QaCheckStatus.warning)).length = 3 := by decide
  have hsc := buildReportFromResults_score c4Report.checks FigureStyle.scientific_map
  have hrep : buildReportFromResults c4Report.checks FigureStyle.scientific_map
      = c4Report := rfl
  rw [hrep] at hsc
  rw [hsc, h1, h2]
  norm_num [jsRound]

/-- C4 as amended: the score of every report produced by the QA Evaluator is
the pass count divided by the evaluated count (skipped checks excluded from
both) rounded half-up to two decimal places, and 0 when no check was
evaluated. -/
theorem score_is_rounded_pass_ratio (style : FigureStyle)
    (br : Result (Option (List ReplyEntry)) GeminiError) (r : QaReport)
    (h : validate style br = .ok r) :
    r.score =
      if 0 < (r.checks.filter (fun c => c.status == QaCheckStatus.pass
          || c.status == QaCheckStatus.fail || c.status == QaCheckStatus.warning)).length then
        (jsRound ((((r.checks.filter (fun c => c.status == QaCheckStatus.pass)).length : ℚ) /
            ((r.checks.filter (fun c => c.status == QaCheckStatus.pass
              || c.status == QaCheckStatus.fail
              || c.status == QaCheckStatus.warning)).length : ℚ)) * 100) : ℚ) / 100
      else 0 := by
  rcases validate_cases style br r h with hr | ⟨entries, _, hr⟩
  · subst hr
    rw [buildSkippedReport_filter_nil _ _ _ (fun c hs => by simp [hs])]
    rfl
  · subst hr
    exact buildReportFromResults_score _ _

/-- Witness for the amended C4 at the concrete counterexample reply: the score
is the rounded ratio there. -/
theorem score_is_rounded_pass_ratio_witness :
    c4Report.score =
      if 0 < (c4Report.checks.filter (fun c => c.status == QaCheckStatus.pass
          || c.status == QaCheckStatus.fail || c.status == QaCheckStatus.warning)).length then
        (jsRound ((((c4Report.checks.filter (fun c => c.status == QaCheckStatus.pass)).length : ℚ) /
            ((c4Report.checks.filter (fun c => c.status == QaCheckStatus.pass
              || c.status == QaCheckStatus.fail
              || c.status == QaCheckStatus.warning)).length : ℚ)) * 100) : ℚ) / 100
      else 0 :=
  score_is_rounded_pass_ratio FigureStyle.scientific_map (.ok (some c4Entries))
    c4Report rfl

/-! ### C5 -/

/-- C5: for every figure style and every evaluator reply, the report has
exactly one check per definition of the effective set, in definition order
(same ids, names and severities); a definition whose reply entry is missing or
carries a status outside pass/fail/warning is marked skipped; and skipped
checks do not contribute to hardFailCount. -/
theorem checks_cover_definitions_in_order (style : FigureStyle)
    (br : Result (Option (List ReplyEntry)) GeminiError) (r : QaReport)
    (h : validate style br = .ok r) :
    r.checks.map (fun c => (c.id, c.name, c.severity)) =
        (getChecksForStyle style).map (fun d => (d.id, d.name, d.severity)) ∧
      r.hardFailCount = (r.checks.filter (fun c =>
        c.status != QaCheckStatus.skipped
          && (c.severity == QaCheckSeverity.hard
            && c.status == QaCheckStatus.fail))).length ∧
      (∀ entries, br = .ok (some entries) →
        ∀ i d c, (getChecksForStyle style).get? i = some d → r.checks.get? i = some c →
          (entries.find? (fun en => en.id == some d.id)).bind (fun en => en.status)
              ≠ some "pass" →
          (entries.find? (fun en => en.id == some d.id)).bind (fun en => en.status)
              ≠ some "fail" →
          (entries.find? (fun en => en.id == some d.id)).bind (fun en => en.status)
              ≠ some "warning" →
          c.status = QaCheckStatus.skipped) := by
  refine ⟨?_, ?_, ?_⟩
  · rcases validate_cases style br r h with hr | ⟨entries, _, hr⟩ <;> subst hr
    · rw [buildSkippedReport_checks, List.map_map]
      rfl
    · rw [buildReportFromResults_checks, List.map_map]
      rfl
  · rw [List.filter_congr (fun c _ => qaCheck_hardfail_pred c)]
    exact validate_hardFailCount style br r h
  · intro entries hbr i d c hd hc hp hf hw
    subst hbr
    have hr : r = parseQaResponse (some entries) style (getChecksForStyle style) := by
      simpa [validate] using h.symm
    subst hr
    simp only [parseQaResponse, buildReportFromResults] at hc
    rw [List.get?_map, hd, Option.map_some'] at hc
    have hce := Option.some.inj hc
    subst hce
    have hp' : ((entries.find? (fun en => en.id == some d.id)).bind
        (fun en => en.status) == some "pass") = false := beq_eq_false_iff_ne.mpr hp
    have hf' : ((entries.find? (fun en => en.id == some d.id)).bind
        (fun en => en.status) == some "fail") = false := beq_eq_false_iff_ne.mpr hf
    have hw' : ((entries.find? (fun en => en.id == some d.id)).bind
        (fun en => en.status) == some "warning") = false := beq_eq_false_iff_ne.mpr hw
    simp only [hp', hf', hw', Bool.false_eq_true, if_false]

/-- Evaluator reply for the C5 witness: eight of the nine map-style check ids
answered, `legend_if_needed` omitted. -/
def c5Entries : List ReplyEntry := [
  { id := some "spelling", status := some "pass", detail := none },
  { id := some "french_accents", status := some "pass", detail := none },
  { id := some "text_readable", status := some "pass", detail := none },
  { id := some "clean_background", status := some "pass", detail := none },
  { id := some "contrast", status := some "pass", detail := none },
  { id := some "scientific_terminology", status := some "pass", detail := none },
  { id := some "scale_bar", status := some "pass", detail := none },
  { id := some "north_arrow", status := some "pass", detail := none }
]

/-- The report built from `c5Entries` for a map figure. -/
def c5Report : QaReport :=
  parseQaResponse (some c5Entries) FigureStyle.scientific_map
    (getChecksForStyle FigureStyle.scientific_map)

/-- The map check definition omitted from `c5Entries`. -/
def c5MissingDef : QaCheckDefinition :=
  { id := "legend_if_needed", name := "Legend If Needed",
    severity := QaCheckSeverity.soft,
    instruction := "If there are color-coded regions, symbols, or multiple data layers, is there a legend explaining them?" }

/-- The materialized skipped check for the omitted definition. -/
def c5SkippedCheck : QaCheck :=
  { id := "legend_if_needed", name := "Legend If Needed",
    severity := QaCheckSeverity.soft, status := QaCheckStatus.skipped,
    detail := none }

/-- Witness for C5 at a concrete input: a reply missing one id from the
9-check map set yields a report covering all nine definitions, with the
missing one materialized as skipped. -/
theorem checks_cover_definitions_in_order_witness :
    c5Report.checks.map (fun c => (c.id, c.name, c.severity)) =
        (getChecksForStyle FigureStyle.scientific_map).map
          (fun d => (d.id, d.name, d.severity)) ∧
      c5SkippedCheck.status = QaCheckStatus.skipped :=
  have H := checks_cover_definitions_in_order FigureStyle.scientific_map
    (.ok (some c5Entries)) c5Report rfl
  ⟨H.1, H.2.2 c5Entries rfl 8 c5MissingDef c5SkippedCheck (by decide) (by decide)
    (by decide) (by decide) (by decide)⟩

/-! ### C6 -/

set_option maxRecDepth 4000 in
/-- A retry patch built around any middle part is non-empty, because the
header is non-empty. -/
lemma retryPatch_ne_empty (middle : String) :
    retryPatchHeader ++ middle ++ retryPatchFooter ≠ "" := by
  intro h
  have hlen := congrArg String.length h
  rw [String.length_append, String.length_append] at hlen
  have hh : 0 < retryPatchHeader.length := by decide
  simp only [String.length_empty] at hlen
  omega

/-- Every remediation line embeds the check's own detail text when the detail
is present (trivially so when the detail is the empty string, which the code
treats as absent). -/
lemma remediationLine_contains_detail (f : QaCheck) (d : String)
    (hd : f.detail = some d) :
    ∃ a b, remediationLine f = a ++ d ++ b := by
  rcases f with ⟨id, name, sev, st, det⟩
  simp only at hd
  subst hd
  simp only [remediationLine]
  rcases hrem : REMEDIATION_INSTRUCTIONS id with _ | instr <;> by_cases hde : d = ""
  · subst hde
    exact ⟨"", "- FIX REQUIRED for \"" ++ name ++ "\": " ++ "This element is mandatory.",
      by simp [String.empty_append, String.append_assoc]⟩
  · refine ⟨"- FIX REQUIRED for \"" ++ name ++ "\": ", "", ?_⟩
    simp [bne_iff_ne, hde, String.append_empty, String.append_assoc]
  · subst hde
    exact ⟨"- " ++ instr, "",
      by simp [String.append_empty]⟩
  · refine ⟨"- " ++ instr ++ " (Issue found: ", ")", ?_⟩
    simp [bne_iff_ne, hde, String.append_assoc]

/-- C6: `buildRetryPatch` returns the empty string iff its input has no check
with severity hard and status fail; otherwise it returns a non-empty string
consisting of one remediation line per hard failure under the corrections
header, and every remediation line embeds the check's own detail text when
present. -/
theorem buildRetryPatch_empty_iff_no_hard_failures (failedChecks : List QaCheck) :
    (buildRetryPatch failedChecks = "" ↔
      failedChecks.filter (fun c => c.severity == QaCheckSeverity.hard
        && c.status == QaCheckStatus.fail) = []) ∧
      (failedChecks.filter (fun c => c.severity == QaCheckSeverity.hard
          && c.status == QaCheckStatus.fail) ≠ [] →
        buildRetryPatch failedChecks =
          retryPatchHeader ++ String.intercalate "\n"
            ((failedChecks.filter (fun c => c.severity == QaCheckSeverity.hard
              && c.status == QaCheckStatus.fail)).map remediationLine)
            ++ retryPatchFooter ∧
        buildRetryPatch failedChecks ≠ "") ∧
      (∀ f d, f.detail = some d → ∃ a b, remediationLine f = a ++ d ++ b) := by
  refine ⟨?_, ?_, fun f d hd => remediationLine_contains_detail f d hd⟩
  · constructor
    · intro he
      by_contra hne
      have hlen : ((failedChecks.filter (fun c => c.severity == QaCheckSeverity.hard
          && c.status == QaCheckStatus.fail)).length == 0) = false := by
        simp [List.length_eq_zero, hne]
      rw [buildRetryPatch, hlen] at he
      exact retryPatch_ne_empty _ (by simpa using he)
    · intro hnil
      simp [buildRetryPatch, hnil]
  · intro hne
    have hlen : ((failedChecks.filter (fun c => c.severity == QaCheckSeverity.hard
        && c.status == QaCheckStatus.fail)).length == 0) = false := by
      simp [List.length_eq_zero, hne]
    refine ⟨?_, ?_⟩
    · rw [buildRetryPatch, hlen]
      simp
    · rw [buildRetryPatch, hlen]
      simpa using retryPatch_ne_empty (String.intercalate "\n"
        ((failedChecks.filter (fun c => c.severity == QaCheckSeverity.hard
          && c.status == QaCheckStatus.fail)).map remediationLine))

/-- A hard-failing scale-bar check with detail text, for the C6 witness. -/
def c6ScaleBarFail : QaCheck :=
  { id := "scale_bar", name := "Scale Bar Present", severity := QaCheckSeverity.hard,
    status := QaCheckStatus.fail, detail := some "no scale bar visible" }

/-- Two hard-failing map checks with detail text, for the C6 witness. -/
def c6Checks : List QaCheck := [
  c6ScaleBarFail,
  { id := "north_arrow", name := "North Arrow Present", severity := QaCheckSeverity.hard,
    status := QaCheckStatus.fail, detail := some "missing north arrow" }
]

/-- Witness for C6 at concrete inputs: the empty list yields an empty patch,
and two known hard failures yield the non-empty delimited block with their
remediation lines. -/
theorem buildRetryPatch_empty_iff_no_hard_failures_witness :
    buildRetryPatch ([] : List QaCheck) = "" ∧
      buildRetryPatch c6Checks =
        retryPatchHeader ++ String.intercalate "\n"
          ((c6Checks.filter (fun c => c.severity == QaCheckSeverity.hard
            && c.status == QaCheckStatus.fail)).map remediationLine)
          ++ retryPatchFooter ∧
      buildRetryPatch c6Checks ≠ "" ∧
      (∃ a b, remediationLine c6ScaleBarFail = a ++ "no scale bar visible" ++ b) :=
  have H := buildRetryPatch_empty_iff_no_hard_failures c6Checks
  have H0 := buildRetryPatch_empty_iff_no_hard_failures ([] : List QaCheck)
  ⟨H0.1.mpr rfl, (H.2.1 (by decide)).1, (H.2.1 (by decide)).2,
    H.2.2 _ "no scale bar visible" rfl⟩

/-! ### Field lemmas for the orchestrator outcome -/

/-- The post-loop tail never changes the generation-call trace. -/
lemma finishOutcome_genPrompts (params : GenerateImageParams) (auto : String)
    (t : LoopTrace) : (finishOutcome params auto t).genPrompts = t.genPrompts := by
  rcases t with ⟨gp, qaA, (⟨_ | g, rp⟩ | e)⟩ <;> rfl

/-- The post-loop tail never changes the QA-call trace. -/
lemma finishOutcome_qaAttempts (params : GenerateImageParams) (auto : String)
    (t : LoopTrace) : (finishOutcome params auto t).qaAttempts = t.qaAttempts := by
  rcases t with ⟨gp, qaA, (⟨_ | g, rp⟩ | e)⟩ <;> rfl

/-- A successful response comes from a loop outcome that retained the same
artifact and report, and the artifact is persisted under the detected-extension
file name. -/
lemma finishOutcome_response_ok (params : GenerateImageParams) (auto : String)
    (t : LoopTrace) (g : GenerationResult) (rep : Option QaReport)
    (h : (finishOutcome params auto t).response = .ok (g, rep)) :
    t.outcome = .ok (some g, rep) ∧
      (finishOutcome params auto t).savedFileName =
        some (match params.fileName with
          | some f => stripExtension f ++ getExtensionFromImageData g.imageData
          | none => auto) := by
  rcases t with ⟨gp, qaA, (⟨_ | g0, rp⟩ | e)⟩
  · exact absurd h (by simp [finishOutcome])
  · have h' : (g0, rp) = (g, rep) := by simpa [finishOutcome] using h
    obtain ⟨h1, h2⟩ := Prod.mk.inj h'
    subst h1
    subst h2
    exact ⟨rfl, rfl⟩
  · exact absurd h (by simp [finishOutcome])

/-- An error response comes either from a loop abort with the same error and
an empty savedFileName, or from the unreachable no-result exit. -/
lemma finishOutcome_response_err (params : GenerateImageParams) (auto : String)
    (t : LoopTrace) (e : GeminiError)
    (h : (finishOutcome params auto t).response = .err e) :
    (finishOutcome params auto t).savedFileName = none ∧
      (t.outcome = .err e ∨ ∃ rp, t.outcome = .ok (none, rp)) := by
  rcases t with ⟨gp, qaA, (⟨_ | g0, rp⟩ | e0)⟩
  · exact ⟨rfl, .inr ⟨rp, rfl⟩⟩
  · exact absurd h (by simp [finishOutcome])
  · refine ⟨rfl, .inl ?_⟩
    have : e0 = e := by simpa [finishOutcome] using h
    rw [this]

/-! ### C10 -/

/-- C10: the saved filename's extension is derived solely from the image
bytes' magic numbers — PNG to .png, JPEG to .jpg, GIF to .gif, WEBP to .webp,
anything shorter than 12 bytes or matching none of these to .png — and a
caller-supplied extension is always replaced by the detected one. -/
theorem saved_extension_from_magic_bytes :
    (∀ imageData : List ℕ, imageData.length < 12 →
        getExtensionFromImageData imageData = ".png") ∧
      (∀ imageData : List ℕ, 12 ≤ imageData.length →
        imageData.getD 0 0 = 0x89 → imageData.getD 1 0 = 0x50 →
        imageData.getD 2 0 = 0x4e → imageData.getD 3 0 = 0x47 →
        getExtensionFromImageData imageData = ".png") ∧
      (∀ imageData : List ℕ, 12 ≤ imageData.length →
        imageData.getD 0 0 = 0xff → imageData.getD 1 0 = 0xd8 →
        imageData.getD 2 0 = 0xff →
        getExtensionFromImageData imageData = ".jpg") ∧
      (∀ imageData : List ℕ, 12 ≤ imageData.length →
        imageData.getD 0 0 = 0x47 → imageData.getD 1 0 = 0x49 →
        imageData.getD 2 0 = 0x46 → imageData.getD 3 0 = 0x38 →
        getExtensionFromImageData imageData = ".gif") ∧
      (∀ imageData : List ℕ, 12 ≤ imageData.length →
        imageData.getD 0 0 = 0x52 → imageData.getD 1 0 = 0x49 →
        imageData.getD 2 0 = 0x46 → imageData.getD 3 0 = 0x46 →
        imageData.getD 8 0 = 0x57 → imageData.getD 9 0 = 0x45 →
        imageData.getD 10 0 = 0x42 → imageData.getD 11 0 = 0x50 →
        getExtensionFromImageData imageData = ".webp") ∧
      (∀ imageData : List ℕ, 12 ≤ imageData.length →
        ¬(imageData.getD 0 0 = 0x89 ∧ imageData.getD 1 0 = 0x50 ∧
          imageData.getD 2 0 = 0x4e ∧ imageData.getD 3 0 = 0x47) →
        ¬(imageData.getD 0 0 = 0xff ∧ imageData.getD 1 0 = 0xd8 ∧
          imageData.getD 2 0 = 0xff) →
        ¬(imageData.getD 0 0 = 0x47 ∧ imageData.getD 1 0 = 0x49 ∧
          imageData.getD 2 0 = 0x46 ∧ imageData.getD 3 0 = 0x38) →
        ¬(imageData.getD 0 0 = 0x52 ∧ imageData.getD 1 0 = 0x49 ∧
          imageData.getD 2 0 = 0x46 ∧ imageData.getD 3 0 = 0x46 ∧
          imageData.getD 8 0 = 0x57 ∧ imageData.getD 9 0 = 0x45 ∧
          imageData.getD 10 0 = 0x42 ∧ imageData.getD 11 0 = 0x50) →
        getExtensionFromImageData imageData = ".png") ∧
      (∀ cfg params iOk oOk sp gen qa et auto f g rep,
        params.fileName = some f →
        (handleGenerateImage cfg params iOk oOk sp gen qa et auto).response
            = .ok (g, rep) →
        (handleGenerateImage cfg params iOk oOk sp gen qa et auto).savedFileName
            = some (stripExtension f ++ getExtensionFromImageData g.imageData)) := by
  refine ⟨?_, ?_, ?_, ?_, ?_, ?_, ?_⟩
  · intro l hl
    simp [getExtensionFromImageData, hl]
  · intro l hl h0 h1 h2 h3
    simp only [List.getD_eq_getElem?_getD] at h0 h1 h2 h3
    simp [getExtensionFromImageData, List.getD_eq_getElem?_getD, Nat.not_lt.mpr hl, h0, h1, h2, h3]
  · intro l hl h0 h1 h2
    simp only [List.getD_eq_getElem?_getD] at h0 h1 h2
    simp [getExtensionFromImageData, List.getD_eq_getElem?_getD, Nat.not_lt.mpr hl, h0, h1, h2]
  · intro l hl h0 h1 h2 h3
    simp only [List.getD_eq_getElem?_getD] at h0 h1 h2 h3
    simp [getExtensionFromImageData, List.getD_eq_getElem?_getD, Nat.not_lt.mpr hl, h0, h1, h2, h3]
  · intro l hl h0 h1 h2 h3 h8 h9 h10 h11
    simp only [List.getD_eq_getElem?_getD] at h0 h1 h2 h3 h8 h9 h10 h11
    simp [getExtensionFromImageData, List.getD_eq_getElem?_getD, Nat.not_lt.mpr hl, h0, h1, h2, h3,
      h8, h9, h10, h11]
  · intro l hl hpng hjpeg hgif hwebp
    simp only [getExtensionFromImageData]
    rw [if_neg (by omega), if_neg ?png, if_neg ?jpeg, if_neg ?gif, if_neg ?webp]
    case png =>
      intro hc
      exact hpng (by simpa [Bool.and_eq_true, beq_iff_eq, and_assoc] using hc)
    case jpeg =>
      intro hc
      exact hjpeg (by simpa [Bool.and_eq_true, beq_iff_eq, and_assoc] using hc)
    case gif =>
      intro hc
      exact hgif (by simpa [Bool.and_eq_true, beq_iff_eq, and_assoc] using hc)
    case webp =>
      intro hc
      exact hwebp (by simpa [Bool.and_eq_true, beq_iff_eq, and_assoc] using hc)
  · intro cfg params iOk oOk sp gen qa et auto f g rep hf hresp
    have H := finishOutcome_response_ok params auto
      (loopTraceOf cfg params iOk oOk sp gen qa et) g rep hresp
    rw [show handleGenerateImage cfg params iOk oOk sp gen qa et auto
      = finishOutcome params auto (loopTraceOf cfg params iOk oOk sp gen qa et) from rfl,
      H.2, hf]

/-- Witness for C10 at concrete inputs: a JPEG buffer saved under a
caller-supplied .png name gets the .jpg extension, and a short buffer defaults
to .png. -/
theorem saved_extension_from_magic_bytes_witness :
    getExtensionFromImageData
        [0xff, 0xd8, 0xff, 0xe0, 0, 0, 0, 0, 0, 0, 0, 0] = ".jpg" ∧
      getExtensionFromImageData [0xff, 0xd8, 0xff] = ".png" ∧
      (handleGenerateImage ⟨false, 1⟩ ⟨"p", some "figure.png", none, none⟩ true true "SP"
          (fun _ _ => .ok ⟨[0xff, 0xd8, 0xff, 0xe0, 0, 0, 0, 0, 0, 0, 0, 0]⟩)
          (fun _ => .err (.apiError "unused")) (fun _ => 0) "auto.png").savedFileName
        = some ("figure" ++ ".jpg") :=
  have H := saved_extension_from_magic_bytes
  ⟨H.2.2.1 _ (by decide) rfl rfl rfl,
    H.1 _ (by decide),
    H.2.2.2.2.2.2 ⟨false, 1⟩ ⟨"p", some "figure.png", none, none⟩ true true "SP"
      (fun _ _ => .ok ⟨[0xff, 0xd8, 0xff, 0xe0, 0, 0, 0, 0, 0, 0, 0, 0]⟩)
      (fun _ => .err (.apiError "unused")) (fun _ => 0) "auto.png"
      "figure.png" ⟨[0xff, 0xd8, 0xff, 0xe0, 0, 0, 0, 0, 0, 0, 0, 0]⟩ none rfl rfl⟩


lemma retryLoopGo_spec (gen : ℕ → String → Result GenerationResult GeminiError)
    (qa : ℕ → Result QaReport GeminiError) (et : ℕ → ℕ)
    (qaOn : Bool) (sp : String) (maxAtt : ℕ) :
    ∀ (remaining attempt : ℕ) (prompt : String) (lg : Option GenerationResult)
      (lr : Option QaReport),
      (retryLoopGo gen qa et qaOn sp maxAtt remaining attempt prompt lg lr).genPrompts.length
          ≤ remaining ∧
        (0 < remaining →
          (retryLoopGo gen qa et qaOn sp maxAtt remaining attempt prompt lg
            lr).genPrompts.get? 0 = some prompt) ∧
        (∀ i, i + 1 < (retryLoopGo gen qa et qaOn sp maxAtt remaining attempt prompt lg
            lr).genPrompts.length →
          ∃ r, qa (attempt + i) = .ok r ∧ r.passed = false ∧
            buildRetryPatch r.checks ≠ "" ∧ attempt + i ≠ maxAtt ∧
            (retryLoopGo gen qa et qaOn sp maxAtt remaining attempt prompt lg
              lr).genPrompts.get? (i + 1) = some (sp ++ buildRetryPatch r.checks)) ∧
        (∀ e, (retryLoopGo gen qa et qaOn sp maxAtt remaining attempt prompt lg
            lr).outcome = .err e →
          (retryLoopGo gen qa et qaOn sp maxAtt remaining attempt prompt lg
              lr).genPrompts.length =
            (retryLoopGo gen qa et qaOn sp maxAtt remaining attempt prompt lg
              lr).qaAttempts.length + 1 ∧
          ∃ p, (retryLoopGo gen qa et qaOn sp maxAtt remaining attempt prompt lg
              lr).genPrompts.get? ((retryLoopGo gen qa et qaOn sp maxAtt remaining attempt
              prompt lg lr).qaAttempts.length) = some p ∧
            gen (attempt + (retryLoopGo gen qa et qaOn sp maxAtt remaining attempt prompt lg
              lr).qaAttempts.length) p = .err e) := by
  intro remaining
  induction remaining with
  | zero =>
    intro attempt prompt lg lr
    refine ⟨by simp [retryLoopGo], by omega, ?_, ?_⟩
    · intro i hi
      simp [retryLoopGo] at hi
    · intro e he
      simp [retryLoopGo] at he
  | succ n ih =>
    intro attempt prompt lg lr
    rcases hg : gen attempt prompt with g | e0
    · -- generation succeeded
      cases qaOn with
      | false =>
        simp only [retryLoopGo, hg]
        refine ⟨by simp, by simp, ?_, ?_⟩
        · intro i hi
          simp at hi
        · intro e he
          simp at he
      | true =>
        rcases hq : qa attempt with r | e1
        · -- qa returned a report
          cases hstop : (r.passed || (attempt == maxAtt)) with
          | true =>
            simp only [retryLoopGo, hg, hq, hstop]
            refine ⟨by simp, by simp, ?_, ?_⟩
            · intro i hi
              simp at hi
            · intro e he
              simp at he
          | false =>
            cases hpatch : (buildRetryPatch r.checks != "") with
            | false =>
              simp only [retryLoopGo, hg, hq, hstop, hpatch]
              refine ⟨by simp, by simp, ?_, ?_⟩
              · intro i hi
                simp at hi
              · intro e he
                simp at he
            | true =>
              have hor := hstop
              rw [Bool.or_eq_false_iff] at hor
              obtain ⟨hpassedF, hneq⟩ := hor
              obtain ⟨ih1, ih2, ih3, ih4⟩ := ih (attempt + 1)
                (sp ++ buildRetryPatch r.checks) (some g)
                (some { r with attempts := attempt, evaluationTimeMs := et attempt })
              simp only [retryLoopGo, hg, hq, hstop, hpatch, Bool.false_eq_true,
                if_false, if_true]
              refine ⟨by simpa using Nat.succ_le_succ ih1, by simp, ?_, ?_⟩
              · intro i hi
                simp only [List.length_cons] at hi
                cases i with
                | zero =>
                  refine ⟨r, by simpa using hq, hpassedF, by simpa using hpatch,
                    by simpa using hneq, ?_⟩
                  have hlen1 : 0 < n := by omega
                  simpa using ih2 hlen1
                | succ j =>
                  obtain ⟨r2, h1, h2, h3, h4, h5⟩ := ih3 j (by omega)
                  refine ⟨r2, ?_, h2, h3, by omega, ?_⟩
                  · rw [← Nat.add_assoc, Nat.add_right_comm]
                    exact h1
                  · simpa using h5
              · intro e he
                obtain ⟨ihl, p, hp1, hp2⟩ := ih4 e he
                refine ⟨by simp only [List.length_cons]; omega, p, ?_, ?_⟩
                · simpa using hp1
                · simp only [List.length_cons]
                  rw [← Nat.add_assoc, Nat.add_right_comm]
                  exact hp2
        · -- qa infrastructure error: stop
          simp only [retryLoopGo, hg, hq]
          refine ⟨by simp, by simp, ?_, ?_⟩
          · intro i hi
            simp at hi
          · intro e he
            simp at he
    · -- generation failed: abort
      simp only [retryLoopGo, hg]
      refine ⟨by simp, by simp, ?_, ?_⟩
      · intro i hi
        simp at hi
      · intro e he
        simp at he
        subst he
        exact ⟨rfl, prompt, rfl, by simpa using hg⟩

lemma retryLoopGo_outcome_ok_lastGen (gen : ℕ → String → Result GenerationResult GeminiError)
    (qa : ℕ → Result QaReport GeminiError) (et : ℕ → ℕ)
    (qaOn : Bool) (sp : String) (maxAtt : ℕ) :
    ∀ (remaining attempt : ℕ) (prompt : String) (lg : Option GenerationResult)
      (lr : Option QaReport) (lg2 : Option GenerationResult) (rp2 : Option QaReport),
      (retryLoopGo gen qa et qaOn sp maxAtt remaining attempt prompt lg lr).outcome
          = .ok (lg2, rp2) →
      lg2.isSome = true ∨ lg2 = lg := by
  intro remaining
  induction remaining with
  | zero =>
    intro attempt prompt lg lr lg2 rp2 h
    simp [retryLoopGo] at h
    exact .inr h.1.symm
  | succ n ih =>
    intro attempt prompt lg lr lg2 rp2 h
    rcases hg : gen attempt prompt with g | e0
    · cases qaOn with
      | false =>
        simp [retryLoopGo, hg] at h
        left
        rw [← h.1]
        rfl
      | true =>
        rcases hq : qa attempt with r | e1
        · cases hstop : (r.passed || (attempt == maxAtt)) with
          | true =>
            simp [retryLoopGo, hg, hq, hstop] at h
            left
            rw [← h.1]
            rfl
          | false =>
            cases hpatch : (buildRetryPatch r.checks != "") with
            | false =>
              simp [retryLoopGo, hg, hq, hstop, hpatch] at h
              left
              rw [← h.1]
              rfl
            | true =>
              simp only [retryLoopGo, hg, hq, hstop, hpatch, Bool.false_eq_true,
                if_false, if_true] at h
              rcases ih (attempt + 1) (sp ++ buildRetryPatch r.checks) (some g)
                (some { r with attempts := attempt, evaluationTimeMs := et attempt })
                lg2 rp2 h with hs | heq
              · exact .inl hs
              · left
                rw [heq]
                rfl
        · simp [retryLoopGo, hg, hq] at h
          left
          rw [← h.1]
          rfl
    · simp [retryLoopGo, hg] at h

lemma retryLoopGo_start_ok_isSome (gen : ℕ → String → Result GenerationResult GeminiError)
    (qa : ℕ → Result QaReport GeminiError) (et : ℕ → ℕ)
    (qaOn : Bool) (sp : String) (maxAtt : ℕ)
    (remaining attempt : ℕ) (prompt : String) (lr : Option QaReport)
    (lg2 : Option GenerationResult) (rp2 : Option QaReport)
    (hpos : 0 < remaining)
    (h : (retryLoopGo gen qa et qaOn sp maxAtt remaining attempt prompt none lr).outcome
      = .ok (lg2, rp2)) :
    lg2.isSome = true := by
  cases remaining with
  | zero => omega
  | succ n =>
    rcases hg : gen attempt prompt with g | e0
    · cases qaOn with
      | false =>
        simp [retryLoopGo, hg] at h
        rw [← h.1]
        rfl
      | true =>
        rcases hq : qa attempt with r | e1
        · cases hstop : (r.passed || (attempt == maxAtt)) with
          | true =>
            simp [retryLoopGo, hg, hq, hstop] at h
            rw [← h.1]
            rfl
          | false =>
            cases hpatch : (buildRetryPatch r.checks != "") with
            | false =>
              simp [retryLoopGo, hg, hq, hstop, hpatch] at h
              rw [← h.1]
              rfl
            | true =>
              simp only [retryLoopGo, hg, hq, hstop, hpatch, Bool.false_eq_true,
                if_false, if_true] at h
              rcases retryLoopGo_outcome_ok_lastGen gen qa et true sp maxAtt n
                (attempt + 1) (sp ++ buildRetryPatch r.checks) (some g)
                (some { r with attempts := attempt, evaluationTimeMs := et attempt })
                lg2 rp2 h with hs | heq
              · exact hs
              · rw [heq]
                rfl
        · simp [retryLoopGo, hg, hq] at h
          rw [← h.1]
          rfl
    · simp [retryLoopGo, hg] at h

lemma retryLoopGo_gen_err_at (gen : ℕ → String → Result GenerationResult GeminiError)
    (qa : ℕ → Result QaReport GeminiError) (et : ℕ → ℕ)
    (qaOn : Bool) (sp : String) (maxAtt : ℕ) :
    ∀ (remaining attempt : ℕ) (prompt : String) (lg : Option GenerationResult)
      (lr : Option QaReport) (k : ℕ) (p : String) (e : GeminiError),
      (retryLoopGo gen qa et qaOn sp maxAtt remaining attempt prompt lg
        lr).genPrompts.get? k = some p →
      gen (attempt + k) p = .err e →
      (retryLoopGo gen qa et qaOn sp maxAtt remaining attempt prompt lg lr).outcome
          = .err e ∧
        (retryLoopGo gen qa et qaOn sp maxAtt remaining attempt prompt lg
          lr).qaAttempts.length = k ∧
        (retryLoopGo gen qa et qaOn sp maxAtt remaining attempt prompt lg
          lr).genPrompts.length = k + 1 := by
  intro remaining
  induction remaining with
  | zero =>
    intro attempt prompt lg lr k p e hk hgen
    simp [retryLoopGo] at hk
  | succ n ih =>
    intro attempt prompt lg lr k p e hk hgen
    rcases hg : gen attempt prompt with g | e0
    · cases qaOn with
      | false =>
        simp only [retryLoopGo, hg, Bool.false_eq_true, if_false] at hk ⊢
        cases k with
        | zero =>
          simp only [List.get?_cons_zero, Option.some.injEq] at hk
          subst hk
          rw [Nat.add_zero] at hgen
          rw [hgen] at hg
          exact absurd hg (by simp)
        | succ j =>
          simp at hk
      | true =>
        rcases hq : qa attempt with r | e1
        · cases hstop : (r.passed || (attempt == maxAtt)) with
          | true =>
            simp only [retryLoopGo, hg, hq, hstop, if_true] at hk ⊢
            cases k with
            | zero =>
              simp only [List.get?_cons_zero, Option.some.injEq] at hk
              subst hk
              rw [Nat.add_zero] at hgen
              rw [hgen] at hg
              exact absurd hg (by simp)
            | succ j =>
              simp at hk
          | false =>
            cases hpatch : (buildRetryPatch r.checks != "") with
            | false =>
              simp only [retryLoopGo, hg, hq, hstop, hpatch, Bool.false_eq_true,
                if_false, if_true] at hk ⊢
              cases k with
              | zero =>
                simp only [List.get?_cons_zero, Option.some.injEq] at hk
                subst hk
                rw [Nat.add_zero] at hgen
                rw [hgen] at hg
                exact absurd hg (by simp)
              | succ j =>
                simp at hk
            | true =>
              simp only [retryLoopGo, hg, hq, hstop, hpatch, Bool.false_eq_true,
                if_false, if_true] at hk ⊢
              cases k with
              | zero =>
                simp only [List.get?_cons_zero, Option.some.injEq] at hk
                subst hk
                rw [Nat.add_zero] at hgen
                rw [hgen] at hg
                exact absurd hg (by simp)
              | succ j =>
                simp only [List.get?_cons_succ] at hk
                have hgen2 : gen (attempt + 1 + j) p = .err e := by
                  rw [← Nat.add_assoc, Nat.add_right_comm] at hgen
                  exact hgen
                obtain ⟨h1, h2, h3⟩ := ih (attempt + 1) (sp ++ buildRetryPatch r.checks)
                  (some g)
                  (some { r with attempts := attempt, evaluationTimeMs := et attempt })
                  j p e hk hgen2
                refine ⟨h1, ?_, ?_⟩
                · simp only [List.length_cons, h2]
                · simp only [List.length_cons, h3]
        · simp only [retryLoopGo, hg, hq, if_true] at hk ⊢
          cases k with
          | zero =>
            simp only [List.get?_cons_zero, Option.some.injEq] at hk
            subst hk
            rw [Nat.add_zero] at hgen
            rw [hgen] at hg
            exact absurd hg (by simp)
          | succ j =>
            simp at hk
    · simp only [retryLoopGo, hg] at hk ⊢
      cases k with
      | zero =>
        simp only [List.get?_cons_zero, Option.some.injEq] at hk
        subst hk
        rw [Nat.add_zero] at hgen
        rw [hgen] at hg
        have he0 : e0 = e := by
          have := hg
          simp at this
          exact this.symm
        subst he0
        exact ⟨rfl, rfl, rfl⟩
      | succ j =>
        simp at hk

/-! ### C3 -/

theorem qa_gating_and_retry_budget (cfg : Config) (params : GenerateImageParams)
    (iOk oOk : Bool) (sp : String)
    (gen : ℕ → String → Result GenerationResult GeminiError)
    (qa : ℕ → Result QaReport GeminiError) (et : ℕ → ℕ) (auto : String) :
    (qaEnabled cfg params iOk oOk = false →
      (handleGenerateImage cfg params iOk oOk sp gen qa et auto).genPrompts.length = 1 ∧
      (handleGenerateImage cfg params iOk oOk sp gen qa et auto).qaAttempts = [] ∧
      ∀ g rep, (handleGenerateImage cfg params iOk oOk sp gen qa et auto).response
          = .ok (g, rep) → rep = none) ∧
    (qaEnabled cfg params iOk oOk = true →
      (handleGenerateImage cfg params iOk oOk sp gen qa et auto).genPrompts.length
          ≤ cfg.scientificQaMaxRetries + 1 ∧
      ∀ i, i + 1 < (handleGenerateImage cfg params iOk oOk sp gen qa et auto).genPrompts.length →
        ∃ r, qa (i + 1) = .ok r ∧ r.passed = false ∧
          i + 1 ≠ cfg.scientificQaMaxRetries + 1) := by
  constructor
  · intro hq
    have ht : loopTraceOf cfg params iOk oOk sp gen qa et
        = retryLoopGo gen qa et false sp 1 1 1 sp none none := by
      simp [loopTraceOf, hq, maxAttemptsFor]
    rcases hg : gen 1 sp with g | e
    · have htr : retryLoopGo gen qa et false sp 1 1 1 sp none none
          = ⟨[sp], [], .ok (some g, none)⟩ := by
        simp [retryLoopGo, hg]
      refine ⟨?_, ?_, ?_⟩
      · simp [handleGenerateImage, ht, htr, finishOutcome]
      · simp [handleGenerateImage, ht, htr, finishOutcome]
      · intro g2 rep hresp
        simp [handleGenerateImage, ht, htr, finishOutcome] at hresp
        exact hresp.2.symm
    · have htr : retryLoopGo gen qa et false sp 1 1 1 sp none none
          = ⟨[sp], [], .err e⟩ := by
        simp [retryLoopGo, hg]
      refine ⟨?_, ?_, ?_⟩
      · simp [handleGenerateImage, ht, htr, finishOutcome]
      · simp [handleGenerateImage, ht, htr, finishOutcome]
      · intro g2 rep hresp
        simp [handleGenerateImage, ht, htr, finishOutcome] at hresp
  · intro hq
    have hgp : (handleGenerateImage cfg params iOk oOk sp gen qa et auto).genPrompts
        = (retryLoopGo gen qa et true sp (cfg.scientificQaMaxRetries + 1)
            (cfg.scientificQaMaxRetries + 1) 1 sp none none).genPrompts := by
      simp [handleGenerateImage, finishOutcome_genPrompts, loopTraceOf, hq, maxAttemptsFor]
    obtain ⟨L1, L2, L3, L4⟩ := retryLoopGo_spec gen qa et true sp
      (cfg.scientificQaMaxRetries + 1) (cfg.scientificQaMaxRetries + 1) 1 sp none none
    constructor
    · rw [hgp]
      exact L1
    · intro i hi
      rw [hgp] at hi
      obtain ⟨r, h1, h2, h3, h4, h5⟩ := L3 i hi
      refine ⟨r, ?_, h2, by omega⟩
      rwa [Nat.add_comm 1 i] at h1

/-! ### C7 -/

theorem retry_prompt_rederived_from_original (cfg : Config) (params : GenerateImageParams)
    (iOk oOk : Bool) (sp : String)
    (gen : ℕ → String → Result GenerationResult GeminiError)
    (qa : ℕ → Result QaReport GeminiError) (et : ℕ → ℕ) (auto : String) :
    (handleGenerateImage cfg params iOk oOk sp gen qa et auto).genPrompts.get? 0 = some sp ∧
    ∀ i, i + 1 < (handleGenerateImage cfg params iOk oOk sp gen qa et auto).genPrompts.length →
      ∃ r, qa (i + 1) = .ok r ∧
        (handleGenerateImage cfg params iOk oOk sp gen qa et auto).genPrompts.get? (i + 1)
          = some (sp ++ buildRetryPatch r.checks) := by
  have hgp : (handleGenerateImage cfg params iOk oOk sp gen qa et auto).genPrompts
      = (retryLoopGo gen qa et (qaEnabled cfg params iOk oOk) sp
          (maxAttemptsFor cfg (qaEnabled cfg params iOk oOk))
          (maxAttemptsFor cfg (qaEnabled cfg params iOk oOk)) 1 sp none none).genPrompts := by
    simp [handleGenerateImage, finishOutcome_genPrompts, loopTraceOf]
  obtain ⟨L1, L2, L3, L4⟩ := retryLoopGo_spec gen qa et (qaEnabled cfg params iOk oOk) sp
    (maxAttemptsFor cfg (qaEnabled cfg params iOk oOk))
    (maxAttemptsFor cfg (qaEnabled cfg params iOk oOk)) 1 sp none none
  have hpos : 0 < maxAttemptsFor cfg (qaEnabled cfg params iOk oOk) := by
    cases qaEnabled cfg params iOk oOk <;> simp [maxAttemptsFor]
  constructor
  · rw [hgp]
    exact L2 hpos
  · intro i hi
    rw [hgp] at hi
    obtain ⟨r, h1, h2, h3, h4, h5⟩ := L3 i hi
    refine ⟨r, ?_, ?_⟩
    · rwa [Nat.add_comm 1 i] at h1
    · rw [hgp]
      exact h5

/-! ### C8 -/

theorem backend_failure_aborts_without_qa_or_save (cfg : Config)
    (params : GenerateImageParams) (iOk oOk : Bool) (sp : String)
    (gen : ℕ → String → Result GenerationResult GeminiError)
    (qa : ℕ → Result QaReport GeminiError) (et : ℕ → ℕ) (auto : String) :
    (∀ k p e, (handleGenerateImage cfg params iOk oOk sp gen qa et auto).genPrompts.get? k
          = some p →
      gen (k + 1) p = .err e →
      (handleGenerateImage cfg params iOk oOk sp gen qa et auto).response = .err e ∧
        (handleGenerateImage cfg params iOk oOk sp gen qa et auto).qaAttempts.length = k ∧
        (handleGenerateImage cfg params iOk oOk sp gen qa et auto).savedFileName = none) ∧
      (∀ e, (handleGenerateImage cfg params iOk oOk sp gen qa et auto).response = .err e →
        (handleGenerateImage cfg params iOk oOk sp gen qa et auto).savedFileName = none ∧
          (handleGenerateImage cfg params iOk oOk sp gen qa et auto).genPrompts.length
            = (handleGenerateImage cfg params iOk oOk sp gen qa et auto).qaAttempts.length
              + 1 ∧
          ∃ p, (handleGenerateImage cfg params iOk oOk sp gen qa et auto).genPrompts.get?
              ((handleGenerateImage cfg params iOk oOk sp gen qa et
                auto).qaAttempts.length) = some p ∧
            gen ((handleGenerateImage cfg params iOk oOk sp gen qa et
              auto).qaAttempts.length + 1) p = .err e) := by
  have hfin : (handleGenerateImage cfg params iOk oOk sp gen qa et auto)
      = finishOutcome params auto (loopTraceOf cfg params iOk oOk sp gen qa et) := rfl
  have hgp : (handleGenerateImage cfg params iOk oOk sp gen qa et auto).genPrompts
      = (retryLoopGo gen qa et (qaEnabled cfg params iOk oOk) sp
          (maxAttemptsFor cfg (qaEnabled cfg params iOk oOk))
          (maxAttemptsFor cfg (qaEnabled cfg params iOk oOk)) 1 sp none none).genPrompts := by
    simp [handleGenerateImage, finishOutcome_genPrompts, loopTraceOf]
  have hqa : (handleGenerateImage cfg params iOk oOk sp gen qa et auto).qaAttempts
      = (retryLoopGo gen qa et (qaEnabled cfg params iOk oOk) sp
          (maxAttemptsFor cfg (qaEnabled cfg params iOk oOk))
          (maxAttemptsFor cfg (qaEnabled cfg params iOk oOk)) 1 sp none none).qaAttempts := by
    simp [handleGenerateImage, finishOutcome_qaAttempts, loopTraceOf]
  have hpos : 0 < maxAttemptsFor cfg (qaEnabled cfg params iOk oOk) := by
    cases qaEnabled cfg params iOk oOk <;> simp [maxAttemptsFor]
  constructor
  · intro k p e hk hgen
    rw [hgp] at hk
    have hgen2 : gen (1 + k) p = .err e := by rwa [Nat.add_comm 1 k]
    obtain ⟨h1, h2, h3⟩ := retryLoopGo_gen_err_at gen qa et
      (qaEnabled cfg params iOk oOk) sp
      (maxAttemptsFor cfg (qaEnabled cfg params iOk oOk))
      (maxAttemptsFor cfg (qaEnabled cfg params iOk oOk)) 1 sp none none k p e hk hgen2
    have houtc : (loopTraceOf cfg params iOk oOk sp gen qa et).outcome = .err e := by
      simpa [loopTraceOf] using h1
    refine ⟨?_, by rw [hqa]; exact h2, ?_⟩
    · rw [hfin]
      rcases ht : loopTraceOf cfg params iOk oOk sp gen qa et with ⟨gp, qaA, o⟩
      rw [ht] at houtc
      simp only at houtc
      subst houtc
      rfl
    · rw [hfin]
      rcases ht : loopTraceOf cfg params iOk oOk sp gen qa et with ⟨gp, qaA, o⟩
      rw [ht] at houtc
      simp only at houtc
      subst houtc
      rfl
  · intro e h
    obtain ⟨hsave, hout⟩ := finishOutcome_response_err params auto
      (loopTraceOf cfg params iOk oOk sp gen qa et) e (by rw [← hfin]; exact h)
    rcases hout with herr | ⟨rp, hok⟩
    · obtain ⟨L1, L2, L3, L4⟩ := retryLoopGo_spec gen qa et
        (qaEnabled cfg params iOk oOk) sp
        (maxAttemptsFor cfg (qaEnabled cfg params iOk oOk))
        (maxAttemptsFor cfg (qaEnabled cfg params iOk oOk)) 1 sp none none
      have herr2 : (retryLoopGo gen qa et (qaEnabled cfg params iOk oOk) sp
          (maxAttemptsFor cfg (qaEnabled cfg params iOk oOk))
          (maxAttemptsFor cfg (qaEnabled cfg params iOk oOk)) 1 sp none none).outcome
          = .err e := by
        simpa [loopTraceOf] using herr
      obtain ⟨hlen, p, hp1, hp2⟩ := L4 e herr2
      refine ⟨by rw [hfin]; exact hsave, by rw [hgp, hqa]; exact hlen, p, ?_, ?_⟩
      · rw [hgp, hqa]
        exact hp1
      · rw [hqa, Nat.add_comm]
        exact hp2
    · exfalso
      have hok2 : (retryLoopGo gen qa et (qaEnabled cfg params iOk oOk) sp
          (maxAttemptsFor cfg (qaEnabled cfg params iOk oOk))
          (maxAttemptsFor cfg (qaEnabled cfg params iOk oOk)) 1 sp none none).outcome
          = .ok (none, rp) := by
        simpa [loopTraceOf] using hok
      have := retryLoopGo_start_ok_isSome gen qa et (qaEnabled cfg params iOk oOk) sp
        (maxAttemptsFor cfg (qaEnabled cfg params iOk oOk))
        (maxAttemptsFor cfg (qaEnabled cfg params iOk oOk)) 1 sp none none rp hpos hok2
      simp at this

/-! ### C9 -/

def c9Config : Config := { enableScientificQa := false, scientificQaMaxRetries := 1 }

def c9Params : GenerateImageParams :=
  { prompt := "p", fileName := none,
    figureStyle := some FigureStyle.scientific_map, validateQa := some true }

theorem qa_gating_validator_init_cex :
    qaEnabled c9Config c9Params true false = false ∧
      (c9Params.figureStyle.isSome
        && (c9Config.enableScientificQa || c9Params.validateQa == some true)) = true ∧
      (handleGenerateImage c9Config c9Params true false "SP"
          (fun _ _ => .ok ⟨[]⟩) (fun _ => .err (.apiError "unused")) (fun _ => 0)
          "auto").qaAttempts = [] := by
  refine ⟨rfl, rfl, rfl⟩

theorem qa_gating_iff_when_validator_init_succeeds (cfg : Config)
    (params : GenerateImageParams) :
    qaEnabled cfg params true true
      = (params.figureStyle.isSome
        && (cfg.enableScientificQa || params.validateQa == some true)) := by
  rcases cfg with ⟨en, mr⟩
  rcases params with ⟨p, f, fs, v⟩
  cases en <;> rcases fs with _ | s <;> rcases v with _ | b <;> (try cases b) <;>
    simp [qaEnabled, qaValidatorPresent]

/-! ### Witness scenarios for the orchestrator claims -/

def scaleBarFailReport : QaReport :=
  { passed := false, score := 0, hardFailCount := 1, checks := [c6ScaleBarFail],
    attempts := 1, figureStyle := FigureStyle.scientific_map, evaluationTimeMs := 0 }

def cfgOn : Config := { enableScientificQa := true, scientificQaMaxRetries := 1 }

def cfgOff : Config := { enableScientificQa := false, scientificQaMaxRetries := 1 }

def paramsOn : GenerateImageParams :=
  { prompt := "p", fileName := none,
    figureStyle := some FigureStyle.scientific_map, validateQa := none }

def paramsOff : GenerateImageParams :=
  { prompt := "p", fileName := none, figureStyle := none, validateQa := none }

def genOk : ℕ → String → Result GenerationResult GeminiError := fun _ _ => .ok ⟨[]⟩

def genBlocked : ℕ → String → Result GenerationResult GeminiError :=
  fun _ _ => .err (.apiError "content blocked")

def qaFail : ℕ → Result QaReport GeminiError := fun _ => .ok scaleBarFailReport

theorem qa_gating_and_retry_budget_witness :
    ((handleGenerateImage cfgOff paramsOff true true "SP" genOk qaFail (fun _ => 0)
        "auto").genPrompts.length = 1 ∧
      (handleGenerateImage cfgOff paramsOff true true "SP" genOk qaFail (fun _ => 0)
        "auto").qaAttempts = [] ∧
      (none : Option QaReport) = none) ∧
      ((handleGenerateImage cfgOn paramsOn true true "SP" genOk qaFail (fun _ => 0)
          "auto").genPrompts.length ≤ cfgOn.scientificQaMaxRetries + 1 ∧
        ∃ r, qaFail (0 + 1) = .ok r ∧ r.passed = false ∧
          0 + 1 ≠ cfgOn.scientificQaMaxRetries + 1) :=
  have H1 := (qa_gating_and_retry_budget cfgOff paramsOff true true "SP" genOk qaFail
    (fun _ => 0) "auto").1 rfl
  have H2 := (qa_gating_and_retry_budget cfgOn paramsOn true true "SP" genOk qaFail
    (fun _ => 0) "auto").2 rfl
  ⟨⟨H1.1, H1.2.1, H1.2.2 ⟨[]⟩ none rfl⟩, H2.1, H2.2 0 (by decide)⟩

theorem retry_prompt_rederived_from_original_witness :
    (handleGenerateImage cfgOn paramsOn true true "SP" genOk qaFail (fun _ => 0)
        "auto").genPrompts.get? 0 = some "SP" ∧
      ∃ r, qaFail (0 + 1) = .ok r ∧
        (handleGenerateImage cfgOn paramsOn true true "SP" genOk qaFail (fun _ => 0)
          "auto").genPrompts.get? (0 + 1) = some ("SP" ++ buildRetryPatch r.checks) :=
  have H := retry_prompt_rederived_from_original cfgOn paramsOn true true "SP" genOk
    qaFail (fun _ => 0) "auto"
  ⟨H.1, H.2 0 (by decide)⟩

theorem backend_failure_aborts_without_qa_or_save_witness :
    ((handleGenerateImage cfgOn paramsOn true true "SP" genBlocked qaFail (fun _ => 0)
        "auto").response = .err (.apiError "content blocked") ∧
      (handleGenerateImage cfgOn paramsOn true true "SP" genBlocked qaFail (fun _ => 0)
        "auto").qaAttempts.length = 0 ∧
      (handleGenerateImage cfgOn paramsOn true true "SP" genBlocked qaFail (fun _ => 0)
        "auto").savedFileName = none) ∧
      (handleGenerateImage cfgOn paramsOn true true "SP" genBlocked qaFail (fun _ => 0)
          "auto").genPrompts.length
        = (handleGenerateImage cfgOn paramsOn true true "SP" genBlocked qaFail
            (fun _ => 0) "auto").qaAttempts.length + 1 :=
  have H := backend_failure_aborts_without_qa_or_save cfgOn paramsOn true true "SP"
    genBlocked qaFail (fun _ => 0) "auto"
  ⟨H.1 0 "SP" (.apiError "content blocked") rfl rfl,
    (H.2 (.apiError "content blocked") rfl).2.1⟩

end McpImage
